import Mathlib

/-!
Verification of the billing-dashboard core logic: the financial-metrics
aggregation, the invoice cache, the currency formatter, the authentication
session manager, and the invoice-screen orchestration.  Each definition is a
shallow embedding of the corresponding TypeScript function; timestamps are
epoch milliseconds, JavaScript promise rejection is `Except`, and the
key-value store (AsyncStorage) is modelled as explicit state together with
failure flags that say whether a given storage operation rejects.
-/

namespace Billing

/-! ## Invoice data model (src/types/invoice.ts)

A runtime invoice object may miss fields or carry a non-numeric amount (the
aggregation code defensively checks `!= null` and `typeof === 'number'`), so
fields that the validity filter inspects are `Option`s and the amount value
distinguishes numeric from non-numeric payloads.  Date-valued fields are
modelled directly as parsed epoch milliseconds. -/

inductive AmountVal where
  | num (n : Int)
  | nonNumeric
deriving Repr, DecidableEq

structure Invoice where
  id : Option Nat
  invoice_number : Option String
  patient_id : Option Nat
  total_amount_cents : Option AmountVal
  status : Option String
  due_date : Option Int
deriving Repr, DecidableEq

/-- Validity filter used by `calculateFinancialMetrics`: id, amount and
status present, and the amount is a number. -/
def Invoice.isValid (inv : Invoice) : Bool :=
  inv.id.isSome &&
    (match inv.total_amount_cents with
      | some (.num _) => true
      | _ => false) &&
    inv.status.isSome

/-- Amount used in the folds, `inv.total_amount_cents || 0`.  Only invoices
that passed `isValid` reach the folds, so the amount is always a number
there; the fallback matches the `|| 0` of the source for an absent value. -/
def Invoice.amountOrZero (inv : Invoice) : Int :=
  match inv.total_amount_cents with
  | some (.num n) => n
  | _ => 0

structure FinancialMetrics where
  outstandingRevenue : Int
  paidRevenue : Int
  totalRevenue : Int
deriving Repr, DecidableEq

/-- Status predicate for the outstanding-revenue fold. -/
def Invoice.isOutstandingStatus (inv : Invoice) : Bool :=
  inv.status == some "unpaid" || inv.status == some "pending"

/-- Status predicate for the paid-revenue fold. -/
def Invoice.isPaidStatus (inv : Invoice) : Bool :=
  inv.status == some "paid"

/-- Shallow embedding of `calculateFinancialMetrics`
(src/utils: financial metrics calculation). -/
def calculateFinancialMetrics (invoices : List Invoice) : FinancialMetrics :=
  let validInvoices := invoices.filter Invoice.isValid
  let outstandingRevenue :=
    (validInvoices.filter Invoice.isOutstandingStatus).foldl
      (fun sum inv => sum + inv.amountOrZero) 0
  let paidRevenue :=
    (validInvoices.filter Invoice.isPaidStatus).foldl
      (fun sum inv => sum + inv.amountOrZero) 0
  let totalRevenue :=
    validInvoices.foldl (fun sum inv => sum + inv.amountOrZero) 0
  { outstandingRevenue := outstandingRevenue
    paidRevenue := paidRevenue
    totalRevenue := totalRevenue }

/-- Sum of the amounts of a list of invoices, the specification-side view of
one of the folds in `calculateFinancialMetrics`. -/
def sumCents (l : List Invoice) : Int :=
  (l.map Invoice.amountOrZero).sum

/-- Concrete invoice used in the worked scenario of the specification. -/
def scenarioInvoice (idx : Nat) (amount : Int) (status : String) : Invoice :=
  { id := some idx
    invoice_number := some (toString idx)
    patient_id := some idx
    total_amount_cents := some (.num amount)
    status := some status
    due_date := none }

/-! ## Currency formatting (formatCurrency / formatFinancialMetrics)

The source divides cents by 100 and renders the quotient with
`Intl.NumberFormat` (en-US, USD, exactly two fraction digits).  For an
integer number of cents in the double-exact range that rendering is the
exact decimal value, so the embedding produces the digit string directly
from integer arithmetic: sign, dollar sign, comma-grouped dollars, a dot,
and the two cent digits. -/

/-- Decimal digit character, `0 ≤ d ≤ 9` expected. -/
def digitChar (d : Nat) : Char := Char.ofNat (48 + d)

/-- Decimal digits of a natural number, most significant first.  Structural
recursion on a fuel argument so that concrete values reduce in the kernel;
`fuel = n + 1` always suffices because `n / 10` shrinks. -/
def digitsAux : Nat → Nat → List Char → List Char
  | 0, _, acc => acc
  | fuel + 1, n, acc =>
    let acc' := digitChar (n % 10) :: acc
    if n / 10 = 0 then acc' else digitsAux fuel (n / 10) acc'

def natDigits (n : Nat) : List Char := digitsAux (n + 1) n []

/-- Thousands grouping of a digit list, commas every three digits from the
right, as `Intl.NumberFormat` en-US produces.  Fuel-structural so concrete
values reduce; `fuel = ds.length` suffices because each step removes at
least one character from the recursive argument. -/
def groupAux : Nat → List Char → List Char
  | 0, ds => ds
  | fuel + 1, ds =>
    if ds.length ≤ 3 then ds
    else groupAux fuel (ds.take (ds.length - 3)) ++ ',' :: ds.drop (ds.length - 3)

def groupDigits (ds : List Char) : List Char := groupAux ds.length ds

/-- Two cent digits with a leading zero, `n < 100` expected. -/
def padTwoChars (n : Nat) : List Char := [digitChar (n / 10 % 10), digitChar (n % 10)]

/-- Character list produced by `formatCurrency`. -/
def formatCurrencyChars (cents : Int) : List Char :=
  (if cents < 0 then ['-'] else []) ++
    '$' :: groupDigits (natDigits (cents.natAbs / 100)) ++
      '.' :: padTwoChars (cents.natAbs % 100)

/-- Shallow embedding of `formatCurrency`: cents to an en-US USD string with
exactly two fraction digits, e.g. `"$12,450.00"` or `"-$12,450.00"`. -/
def formatCurrency (cents : Int) : String := String.mk (formatCurrencyChars cents)

structure FinancialMetricsDisplay where
  outstandingRevenue : String
  paidRevenue : String
  totalRevenue : String
deriving Repr, DecidableEq

/-- Shallow embedding of `formatFinancialMetrics`. -/
def formatFinancialMetrics (metrics : FinancialMetrics) : FinancialMetricsDisplay :=
  { outstandingRevenue := formatCurrency metrics.outstandingRevenue
    paidRevenue := formatCurrency metrics.paidRevenue
    totalRevenue := formatCurrency metrics.totalRevenue }

/-! ## Invoice cache (saveInvoiceCache / loadInvoiceCache)

AsyncStorage under the single cache key is modelled as a store holding the
cell content plus three flags saying whether the next getItem / setItem /
removeItem call rejects.  A present cell is either a well-formed serialized
entry or a corrupt string on which `JSON.parse` throws. -/

def CACHE_TTL : Nat := 5 * 60 * 1000

structure CachedInvoiceData where
  invoices : List Invoice
  timestamp : Nat
  expiresAt : Nat
deriving Repr, DecidableEq

inductive RawCached where
  | corrupt
  | good (d : CachedInvoiceData)
deriving Repr, DecidableEq

structure KVStore where
  cell : Option RawCached
  getFails : Bool
  setFails : Bool
  removeFails : Bool
deriving Repr, DecidableEq

def KVStore.getItem (st : KVStore) : Except Unit (Option RawCached) :=
  if st.getFails then .error () else .ok st.cell

def KVStore.setItem (st : KVStore) (d : CachedInvoiceData) : Except Unit KVStore :=
  if st.setFails then .error () else .ok { st with cell := some (.good d) }

def KVStore.removeItem (st : KVStore) : Except Unit KVStore :=
  if st.removeFails then .error () else .ok { st with cell := none }

/-- Shallow embedding of `saveInvoiceCache`.  The source has no try/catch
here: a rejection of `AsyncStorage.setItem` propagates to the caller. -/
def saveInvoiceCache (now : Nat) (invoices : List Invoice) (st : KVStore) :
    Except Unit KVStore :=
  st.setItem { invoices := invoices, timestamp := now, expiresAt := now + CACHE_TTL }

/-- Body of the try block of `loadInvoiceCache`: read the cell, parse it,
drop it when expired (`now > expiresAt`).  A thrown error surfaces as
`Except.error`. -/
def loadInvoiceCacheTry (now : Nat) (st : KVStore) :
    Except Unit (Option (List Invoice) × KVStore) := do
  match ← st.getItem with
  | none => return (none, st)
  | some .corrupt => Except.error ()
  | some (.good cacheData) =>
    if cacheData.expiresAt < now then do
      let st' ← st.removeItem
      return (none, st')
    else
      return (some cacheData.invoices, st)

/-- Shallow embedding of `loadInvoiceCache`: the whole body sits inside a
try/catch whose handler returns null, so the operation is total and a
storage or parse failure yields the no-cache result with the store
unchanged. -/
def loadInvoiceCache (now : Nat) (st : KVStore) : Option (List Invoice) × KVStore :=
  match loadInvoiceCacheTry now st with
  | .ok r => r
  | .error _ => (none, st)

/-! ## Authentication data model (src/types/auth.ts) -/

inductive UserRole where
  | admin
  | doctor
  | billing_staff
  | receptionist
deriving Repr, DecidableEq

structure User where
  id : Nat
  email : String
  name : String
  role : UserRole
  created_at : String
deriving Repr, DecidableEq

structure AuthTokens where
  access_token : String
  refresh_token : String
  token_type : String
deriving Repr, DecidableEq

/-- In-memory session state of the auth context: the two `useState` cells
for user and tokens plus the loading flag. -/
structure AuthState where
  user : Option User
  tokens : Option AuthTokens
  loading : Bool
deriving Repr, DecidableEq

/-- Computed authenticated flag, `user !== null && tokens !== null`. -/
def isAuthenticated (s : AuthState) : Bool := s.user.isSome && s.tokens.isSome

/-- State the catch/cleanup paths of the auth context leave behind. -/
def clearedState : AuthState := { user := none, tokens := none, loading := false }

/-- Content of an AsyncStorage key: a serialized value that parses back, or
a corrupt string on which `JSON.parse` throws. -/
inductive StoredVal (α : Type) where
  | corrupt
  | good (a : α)
deriving Repr, DecidableEq

/-- Durable storage under the two credential keys of the auth context
(`tokens` and `user`); `none` means the key is absent. -/
structure AuthStorage where
  tokens : Option (StoredVal AuthTokens)
  user : Option (StoredVal User)
deriving Repr, DecidableEq

/-! ## Remote API calls (authApi / invoiceApi)

A single HTTP round trip either rejects at the network level or yields a
response with a status code and a body whose JSON decoding may fail. -/

instance {ε α : Type} [DecidableEq ε] [DecidableEq α] : DecidableEq (Except ε α) :=
  fun a b =>
    match a, b with
    | .error e1, .error e2 =>
      if h : e1 = e2 then .isTrue (h ▸ rfl) else .isFalse (fun hc => h (Except.error.inj hc))
    | .ok x, .ok y =>
      if h : x = y then .isTrue (h ▸ rfl) else .isFalse (fun hc => h (Except.ok.inj hc))
    | .error _, .ok _ => .isFalse (fun hc => Except.noConfusion hc)
    | .ok _, .error _ => .isFalse (fun hc => Except.noConfusion hc)

inductive HttpOutcome (α : Type) where
  | netError
  | resp (status : Nat) (body : Except Unit α)
deriving Repr, DecidableEq

/-- Whether a status code counts as `response.ok`. -/
def httpOk (status : Nat) : Prop := 200 ≤ status ∧ status < 300

instance (status : Nat) : Decidable (httpOk status) := by
  unfold httpOk
  infer_instance

/-- Shallow embedding of `login` from the auth API service: every failure
(network, non-2xx, malformed body) collapses to the one message. -/
def loginApi (o : HttpOutcome AuthTokens) : Except String AuthTokens :=
  match o with
  | .netError => .error "Login failed"
  | .resp status body =>
    if httpOk status then
      match body with
      | .ok tokens => .ok tokens
      | .error _ => .error "Login failed"
    else .error "Login failed"

/-- Shallow embedding of `fetchUser` from the auth API service: a 401/403
response is re-thrown distinctly, everything else collapses. -/
def fetchUserApi (o : HttpOutcome User) : Except String User :=
  match o with
  | .netError => .error "Login failed"
  | .resp status body =>
    if httpOk status then
      match body with
      | .ok user => .ok user
      | .error _ => .error "Login failed"
    else if status = 401 ∨ status = 403 then .error "Token expired"
    else .error "Login failed"

/-- Shallow embedding of `fetchInvoices` from the invoice API service. -/
def fetchInvoices (o : HttpOutcome (List Invoice)) : Except String (List Invoice) :=
  match o with
  | .netError => .error "Failed to fetch invoices"
  | .resp status body =>
    if httpOk status then
      match body with
      | .ok invoices => .ok invoices
      | .error _ => .error "Failed to fetch invoices"
    else if status = 401 ∨ status = 403 then .error "Token expired"
    else .error "Failed to fetch invoices"

/-! ## Session manager operations (AuthContext)

Each operation is modelled as a function of the outcomes of its suspension
points (API calls and storage writes) and returns, besides the final state,
the list of state snapshots React flushes at each suspension point
(consecutive `setState` calls with no `await` between them batch into one
snapshot).  The final state is the last element of that trace. -/

/-- Outcomes of the suspension points inside one `login` call.  The write
errors carry the message of the rejection thrown by `AsyncStorage.setItem`
for the tokens key and the user key respectively (`none` = the write
succeeds). -/
structure LoginEnv where
  loginHttp : HttpOutcome AuthTokens
  fetchUserHttp : HttpOutcome User
  tokensWriteError : Option String
  userWriteError : Option String
deriving Repr, DecidableEq

structure LoginResult where
  outcome : Except String Unit
  state : AuthState
  storage : AuthStorage
  trace : List AuthState
deriving Repr, DecidableEq

/-- Shallow embedding of `login` in the auth context: authenticate, fetch
the profile, set both state cells, persist both keys; any throw lands in
the catch, which clears both cells and rethrows, and the finally clears the
loading flag. -/
def loginRun (env : LoginEnv) (s0 : AuthState) (st0 : AuthStorage) : LoginResult :=
  let s1 : AuthState := { s0 with loading := true }
  match loginApi env.loginHttp with
  | .error e => ⟨.error e, clearedState, st0, [s1, clearedState]⟩
  | .ok authTokens =>
    match fetchUserApi env.fetchUserHttp with
    | .error e => ⟨.error e, clearedState, st0, [s1, clearedState]⟩
    | .ok userData =>
      let s2 : AuthState := { user := some userData, tokens := some authTokens, loading := true }
      match env.tokensWriteError with
      | some e => ⟨.error e, clearedState, st0, [s1, s2, clearedState]⟩
      | none =>
        let st1 : AuthStorage := { st0 with tokens := some (.good authTokens) }
        match env.userWriteError with
        | some e => ⟨.error e, clearedState, st1, [s1, s2, clearedState]⟩
        | none =>
          let sF : AuthState :=
            { user := some userData, tokens := some authTokens, loading := false }
          ⟨.ok (), sF, { st1 with user := some (.good userData) }, [s1, s2, sF]⟩

/-- Outcomes of the two `AsyncStorage.removeItem` calls of `logout` and of
the token-expiration handler. -/
structure RemoveEnv where
  removeTokensError : Bool
  removeUserError : Bool
deriving Repr, DecidableEq

/-- Shallow embedding of `logout`: clear both state cells, then best-effort
removal of both keys; a removal failure is only logged, but it does abort
the second removal. -/
def logoutRun (env : RemoveEnv) (s0 : AuthState) (st0 : AuthStorage) :
    AuthState × AuthStorage :=
  let s1 : AuthState := { user := none, tokens := none, loading := s0.loading }
  if env.removeTokensError then (s1, st0)
  else
    let st1 : AuthStorage := { st0 with tokens := none }
    if env.removeUserError then (s1, st1)
    else (s1, { st1 with user := none })

/-- Shallow embedding of `handleTokenExpiration`, the credential-expiry
handler of the auth context (same body as `logout`). -/
def handleTokenExpirationRun (env : RemoveEnv) (s0 : AuthState) (st0 : AuthStorage) :
    AuthState × AuthStorage :=
  let s1 : AuthState := { user := none, tokens := none, loading := s0.loading }
  if env.removeTokensError then (s1, st0)
  else
    let st1 : AuthStorage := { st0 with tokens := none }
    if env.removeUserError then (s1, st1)
    else (s1, { st1 with user := none })

/-- Outcomes of the suspension points inside one `restoreSession` call. -/
structure RestoreEnv where
  readError : Bool
  fetchUserHttp : HttpOutcome User
  userWriteError : Bool
  removeTokensError : Bool
  removeUserError : Bool
deriving Repr, DecidableEq

structure RestoreResult where
  state : AuthState
  storage : AuthStorage
  trace : List AuthState
deriving Repr, DecidableEq

/-- Revalidation-failure path of `restoreSession` (the inner catch): clear
both cells, then remove both keys; a removal rejection escapes to the outer
catch, which clears the already-cleared cells, and the finally drops the
loading flag. -/
def restoreInnerCatch (env : RestoreEnv) (st0 : AuthStorage) :
    AuthState × AuthStorage × List AuthState :=
  let s4 : AuthState := { user := none, tokens := none, loading := true }
  if env.removeTokensError then (clearedState, st0, [s4, clearedState])
  else
    let st1 : AuthStorage := { st0 with tokens := none }
    if env.removeUserError then (clearedState, st1, [s4, clearedState])
    else (clearedState, { st1 with user := none }, [s4, clearedState])

/-- Shallow embedding of the `restoreSession` closure run once at mount:
read both keys, optimistically set the parsed values, revalidate via the
profile fetch, and on any failure fall back to a fully cleared session.  A
parse failure or a storage read failure lands in the outer catch. -/
def restoreRun (env : RestoreEnv) (s0 : AuthState) (st0 : AuthStorage) : RestoreResult :=
  let s1 : AuthState := { s0 with loading := true }
  if env.readError then ⟨clearedState, st0, [s1, clearedState]⟩
  else
    match st0.tokens, st0.user with
    | some (.good parsedTokens), some (.good parsedUser) =>
      let s2 : AuthState :=
        { user := some parsedUser, tokens := some parsedTokens, loading := true }
      (match fetchUserApi env.fetchUserHttp with
       | .ok userData =>
         let s3 : AuthState :=
           { user := some userData, tokens := some parsedTokens, loading := true }
         if env.userWriteError then
           let (sF, stF, tr) := restoreInnerCatch env st0
           ⟨sF, stF, [s1, s2, s3] ++ tr⟩
         else
           let sF : AuthState :=
             { user := some userData, tokens := some parsedTokens, loading := false }
           ⟨sF, { st0 with user := some (.good userData) }, [s1, s2, s3, sF]⟩
       | .error _ =>
         let (sF, stF, tr) := restoreInnerCatch env st0
         ⟨sF, stF, [s1, s2] ++ tr⟩)
    | some (.corrupt), some _ => ⟨clearedState, st0, [s1, clearedState]⟩
    | some (.good _), some (.corrupt) => ⟨clearedState, st0, [s1, clearedState]⟩
    | _, _ =>
      let sF : AuthState := { s0 with loading := false }
      ⟨sF, st0, [s1, sF]⟩

/-- States of the session manager observable at some suspension point of
some interleaving of the four operations, starting from the empty state the
provider mounts with. -/
inductive ReachableAuth : AuthState → Prop where
  | init : ReachableAuth { user := none, tokens := none, loading := false }
  | login_step (env : LoginEnv) (s0 : AuthState) (st0 : AuthStorage) (s : AuthState) :
      ReachableAuth s0 → s ∈ (loginRun env s0 st0).trace → ReachableAuth s
  | logout_step (env : RemoveEnv) (s0 : AuthState) (st0 : AuthStorage) :
      ReachableAuth s0 → ReachableAuth (logoutRun env s0 st0).1
  | expiry_step (env : RemoveEnv) (s0 : AuthState) (st0 : AuthStorage) :
      ReachableAuth s0 → ReachableAuth (handleTokenExpirationRun env s0 st0).1
  | restore_step (env : RestoreEnv) (s0 : AuthState) (st0 : AuthStorage) (s : AuthState) :
      ReachableAuth s0 → s ∈ (restoreRun env s0 st0).trace → ReachableAuth s

/-! ## Invoice screen orchestration (InvoicesScreen.loadInvoices)

The screen converts fetched invoices to display form; the conversion is
presentation glue (the specification scopes it out), embedded here so the
orchestration can be stated end to end.  Dates are epoch milliseconds and
the en-US short-date rendering is computed with the standard civil-calendar
algorithm.  A record missing a field renders with a junk placeholder here
(in JavaScript a missing id would throw inside the conversion); no theorem
depends on that corner. -/

inductive DisplayStatus where
  | Paid
  | Pending
  | Overdue
deriving Repr, DecidableEq

structure DisplayInvoice where
  id : String
  number : String
  amount : String
  patientId : String
  dueDate : String
  status : DisplayStatus
deriving Repr, DecidableEq

/-- Template-literal coercion of a possibly missing number. -/
def jsCoerceNat : Option Nat → String
  | some n => toString n
  | none => "undefined"

/-- Template-literal coercion of a possibly missing string. -/
def jsCoerceString : Option String → String
  | some s => s
  | none => "undefined"

/-- Shallow embedding of `mapApiStatusToDisplay`. -/
def mapApiStatusToDisplay (status : Option String) (dueDate : Option Int) (now : Int) :
    DisplayStatus :=
  if status == some "paid" then .Paid
  else if (status == some "unpaid" || status == some "pending") &&
      (match dueDate with
        | some due => decide (due < now)
        | none => false) then .Overdue
  else if status == some "pending" then .Pending
  else .Pending

/-- Civil date (year, month 1-12, day 1-31) of a day count relative to
1970-01-01, by the standard era-based algorithm. -/
def civilFromDays (z0 : Int) : Int × Nat × Nat :=
  let z := z0 + 719468
  let era : Int := Int.fdiv z 146097
  let doe : Nat := (z - era * 146097).toNat
  let yoe : Nat := (doe - doe / 1460 + doe / 36524 - doe / 146096) / 365
  let doy : Nat := doe - (365 * yoe + yoe / 4 - yoe / 100)
  let mp : Nat := (5 * doy + 2) / 153
  let d : Nat := doy - (153 * mp + 2) / 5 + 1
  let m : Nat := if mp < 10 then mp + 3 else mp - 9
  ((if m ≤ 2 then (yoe : Int) + era * 400 + 1 else (yoe : Int) + era * 400), m, d)

def monthShortNames : List String :=
  ["Jan", "Feb", "Mar", "Apr", "May", "Jun", "Jul", "Aug", "Sep", "Oct", "Nov", "Dec"]

/-- Shallow embedding of `formatDate`: en-US short rendering such as
`"Sep 18, 2025"`, or `"N/A"` for an absent date. -/
def formatDate : Option Int → String
  | none => "N/A"
  | some ms =>
    let (y, m, d) := civilFromDays (Int.fdiv ms 86400000)
    monthShortNames.getD (m - 1) "" ++ " " ++ toString d ++ ", " ++ toString y

/-- Shallow embedding of `formatAmount` of the invoice screen, a verbatim
copy of the `formatCurrency` rendering. -/
def formatAmount (cents : Int) : String := String.mk (formatCurrencyChars cents)

/-- Shallow embedding of `convertInvoiceToDisplay`. -/
def convertInvoiceToDisplay (now : Int) (invoice : Invoice) : DisplayInvoice :=
  { id := jsCoerceNat invoice.id
    number := "#" ++ jsCoerceString invoice.invoice_number
    amount := formatAmount invoice.amountOrZero
    patientId := "P-" ++ jsCoerceNat invoice.patient_id
    dueDate := formatDate invoice.due_date
    status := mapApiStatusToDisplay invoice.status invoice.due_date now }

structure InvoicesScreenState where
  invoices : List DisplayInvoice
  isLoading : Bool
  isRefreshing : Bool
  error : Option String
deriving Repr, DecidableEq

/-- Result of one `loadInvoices` run.  The session state and the credential
storage appear so that theorems can speak about them; the function has no
access to either (it only reads the token), so they pass through
unchanged. -/
structure LoadInvoicesResult where
  screen : InvoicesScreenState
  cache : KVStore
  session : AuthState
  authStorage : AuthStorage
deriving Repr, DecidableEq

/-- Catch block of `loadInvoices`: retry the cache; display it when
present, otherwise show the generic error with an empty list. -/
def loadInvoicesCatch (now : Nat) (cacheSt : KVStore) (s : InvoicesScreenState) :
    InvoicesScreenState × KVStore :=
  match loadInvoiceCache now cacheSt with
  | (some cachedInvoices, c') =>
    ({ s with invoices := cachedInvoices.map (convertInvoiceToDisplay (now : Int))
              isLoading := false
              isRefreshing := false }, c')
  | (none, c') =>
    ({ s with error := some "Unable to load invoices"
              invoices := []
              isLoading := false
              isRefreshing := false }, c')

/-- Shallow embedding of `loadInvoices` of the invoice screen: bail out
without a token; otherwise show the unexpired cache (unless refreshing),
fetch, persist and display fresh data, and on any throw fall back to the
cache or the generic error.  The finally clears both spinner flags. -/
def loadInvoices (isRefresh : Bool) (now : Nat) (fetchHttp : HttpOutcome (List Invoice))
    (session : AuthState) (authSt : AuthStorage) (cacheSt : KVStore)
    (s : InvoicesScreenState) : LoadInvoicesResult :=
  match session.tokens with
  | none => ⟨{ s with isLoading := false }, cacheSt, session, authSt⟩
  | some tokens =>
    if tokens.access_token = "" then ⟨{ s with isLoading := false }, cacheSt, session, authSt⟩
    else
      let s1 := if isRefresh then { s with isRefreshing := true } else { s with isLoading := true }
      let s2 := { s1 with error := none }
      let (s3, cacheSt1) :=
        if isRefresh then (s2, cacheSt)
        else
          match loadInvoiceCache now cacheSt with
          | (some cachedInvoices, c') =>
            ({ s2 with invoices := cachedInvoices.map (convertInvoiceToDisplay (now : Int)) }, c')
          | (none, c') => (s2, c')
      match fetchInvoices fetchHttp with
      | .ok apiInvoices =>
        (match saveInvoiceCache now apiInvoices cacheSt1 with
         | .ok cacheSt2 =>
           ⟨{ s3 with invoices := apiInvoices.map (convertInvoiceToDisplay (now : Int))
                      isLoading := false
                      isRefreshing := false }, cacheSt2, session, authSt⟩
         | .error _ =>
           let (sE, cE) := loadInvoicesCatch now cacheSt1 s3
           ⟨sE, cE, session, authSt⟩)
      | .error _ =>
        let (sE, cE) := loadInvoicesCatch now cacheSt1 s3
        ⟨sE, cE, session, authSt⟩

/-! ## Concrete fixtures used by witnesses and counterexamples -/

def t0 : AuthTokens :=
  { access_token := "access", refresh_token := "refresh", token_type := "bearer" }

def u0 : User :=
  { id := 1, email := "admin@clinic.test", name := "Admin", role := .admin
    created_at := "2024-01-01" }

def emptyAuthState : AuthState := { user := none, tokens := none, loading := false }

def emptyAuthStorage : AuthStorage := { tokens := none, user := none }

def emptyCache : KVStore :=
  { cell := none, getFails := false, setFails := false, removeFails := false }

theorem foldl_add_amount (l : List Invoice) (init : Int) :
    l.foldl (fun sum inv => sum + inv.amountOrZero) init = init + sumCents l := by
  induction l generalizing init with
  | nil => simp [sumCents]
  | cons a t ih => simp [sumCents, List.foldl_cons, ih, List.map_cons, List.sum_cons]; ring

theorem calculateFinancialMetrics_eq (invoices : List Invoice) :
    calculateFinancialMetrics invoices =
      { outstandingRevenue :=
          sumCents ((invoices.filter Invoice.isValid).filter Invoice.isOutstandingStatus)
        paidRevenue :=
          sumCents ((invoices.filter Invoice.isValid).filter Invoice.isPaidStatus)
        totalRevenue := sumCents (invoices.filter Invoice.isValid) } := by
  simp [calculateFinancialMetrics, foldl_add_amount]

theorem digitChar_isDigit (d : Nat) (hd : d < 10) : (digitChar d).isDigit = true := by
  interval_cases d <;> decide

theorem mem_digitsAux (fuel : Nat) :
    ∀ (n : Nat) (acc : List Char), ∀ c ∈ digitsAux fuel n acc, c ∈ acc ∨ c.isDigit = true := by
  induction fuel with
  | zero => intro n acc c hc; exact Or.inl hc
  | succ fuel ih =>
    intro n acc c hc
    simp only [digitsAux] at hc
    split at hc
    · rcases List.mem_cons.mp hc with h | h
      · exact Or.inr (h ▸ digitChar_isDigit _ (Nat.mod_lt _ (by decide)))
      · exact Or.inl h
    · rcases ih (n / 10) _ c hc with h | h
      · rcases List.mem_cons.mp h with h | h
        · exact Or.inr (h ▸ digitChar_isDigit _ (Nat.mod_lt _ (by decide)))
        · exact Or.inl h
      · exact Or.inr h

theorem mem_natDigits (n : Nat) : ∀ c ∈ natDigits n, c.isDigit = true := by
  intro c hc
  rcases mem_digitsAux (n + 1) n [] c hc with h | h
  · cases h
  · exact h

theorem mem_groupAux (fuel : Nat) :
    ∀ (ds : List Char), ∀ c ∈ groupAux fuel ds, c ∈ ds ∨ c = ',' := by
  induction fuel with
  | zero => intro ds c hc; exact Or.inl hc
  | succ fuel ih =>
    intro ds c hc
    simp only [groupAux] at hc
    split at hc
    · exact Or.inl hc
    · rcases List.mem_append.mp hc with h | h
      · rcases ih _ c h with h | h
        · exact Or.inl (List.take_subset _ _ h)
        · exact Or.inr h
      · rcases List.mem_cons.mp h with h | h
        · exact Or.inr h
        · exact Or.inl (List.drop_subset _ _ h)

theorem mem_groupDigits (ds : List Char) : ∀ c ∈ groupDigits ds, c ∈ ds ∨ c = ',' :=
  mem_groupAux ds.length ds

theorem loginApi_error_msg (o : HttpOutcome AuthTokens) (e : String)
    (h : loginApi o = .error e) : e = "Login failed" := by
  unfold loginApi at h
  rcases o with _ | ⟨status, body⟩
  · exact (Except.error.inj h).symm
  · by_cases hok : httpOk status
    · simp only [if_pos hok] at h
      cases body with
      | ok t => cases h
      | error u => exact (Except.error.inj h).symm
    · simp only [if_neg hok] at h
      exact (Except.error.inj h).symm

theorem fetchUserApi_error_msg (o : HttpOutcome User) (e : String)
    (h : fetchUserApi o = .error e) : e = "Login failed" ∨ e = "Token expired" := by
  unfold fetchUserApi at h
  rcases o with _ | ⟨status, body⟩
  · exact Or.inl (Except.error.inj h).symm
  · by_cases hok : httpOk status
    · simp only [if_pos hok] at h
      cases body with
      | ok t => cases h
      | error u => exact Or.inl (Except.error.inj h).symm
    · simp only [if_neg hok] at h
      by_cases hauth : status = 401 ∨ status = 403
      · simp only [if_pos hauth] at h
        exact Or.inr (Except.error.inj h).symm
      · simp only [if_neg hauth] at h
        exact Or.inl (Except.error.inj h).symm

/-- Session-state invariant of the specification: a user identity never
exists with the credential pair absent. -/
def userImpliesTokens (s : AuthState) : Prop :=
  s.user.isSome = true → s.tokens.isSome = true

theorem loginRun_trace_inv (env : LoginEnv) (s0 : AuthState) (st0 : AuthStorage)
    (h0 : userImpliesTokens s0) :
    ∀ s ∈ (loginRun env s0 st0).trace, userImpliesTokens s := by
  intro s hs
  unfold loginRun at hs
  rcases hla : loginApi env.loginHttp with e | authTokens <;> rw [hla] at hs
  · simp only [List.mem_cons, List.not_mem_nil, or_false] at hs
    rcases hs with rfl | rfl
    · exact h0
    · intro hu; exact absurd hu (by decide)
  · rcases hfu : fetchUserApi env.fetchUserHttp with e | userData <;> rw [hfu] at hs
    · simp only [List.mem_cons, List.not_mem_nil, or_false] at hs
      rcases hs with rfl | rfl
      · exact h0
      · intro hu; exact absurd hu (by decide)
    · rcases htw : env.tokensWriteError with _ | e <;> rw [htw] at hs
      · rcases huw : env.userWriteError with _ | e' <;> rw [huw] at hs
        · simp only [List.mem_cons, List.not_mem_nil, or_false] at hs
          rcases hs with rfl | rfl | rfl
          · exact h0
          · intro hu; rfl
          · intro hu; rfl
        · simp only [List.mem_cons, List.not_mem_nil, or_false] at hs
          rcases hs with rfl | rfl | rfl
          · exact h0
          · intro hu; rfl
          · intro hu; exact absurd hu (by decide)
      · simp only [List.mem_cons, List.not_mem_nil, or_false] at hs
        rcases hs with rfl | rfl | rfl
        · exact h0
        · intro hu; rfl
        · intro hu; exact absurd hu (by decide)

theorem restoreInnerCatch_inv (env : RestoreEnv) (st0 : AuthStorage) :
    ∀ s ∈ (restoreInnerCatch env st0).2.2, userImpliesTokens s := by
  intro s hs
  unfold restoreInnerCatch at hs
  cases h1 : env.removeTokensError <;> rw [h1] at hs <;>
    [cases h2 : env.removeUserError <;> rw [h2] at hs; skip] <;>
    simp only [Bool.false_eq_true, Bool.true_eq_false, if_false, if_true,
      List.mem_cons, List.not_mem_nil, or_false, ite_true, ite_false] at hs <;>
    rcases hs with rfl | rfl <;> intro hu <;> exact absurd hu (by decide)

theorem restoreRun_trace_inv (env : RestoreEnv) (s0 : AuthState) (st0 : AuthStorage)
    (h0 : userImpliesTokens s0) :
    ∀ s ∈ (restoreRun env s0 st0).trace, userImpliesTokens s := by
  intro s hs
  unfold restoreRun at hs
  cases hre : env.readError <;> rw [hre] at hs
  case true =>
    simp only [if_true, ite_true, List.mem_cons, List.not_mem_nil, or_false] at hs
    rcases hs with rfl | rfl
    · exact h0
    · intro hu; exact absurd hu (by decide)
  case false =>
    simp only [Bool.false_eq_true, if_false, ite_false] at hs
    rcases hst : st0.tokens with _ | (_ | parsedTokens) <;>
      rcases hsu : st0.user with _ | (_ | parsedUser) <;>
      rw [hst, hsu] at hs <;>
      try (simp only [List.mem_cons, List.not_mem_nil, or_false] at hs;
           rcases hs with rfl | rfl;
           · exact h0
           · first
             | exact h0
             | (intro hu; exact absurd hu (by decide)))
    -- remaining case: both keys hold well-formed values
    rcases hfu : fetchUserApi env.fetchUserHttp with e | userData <;> rw [hfu] at hs
    · simp only [List.cons_append, List.nil_append, List.mem_cons] at hs
      rcases hs with rfl | rfl | hs
      · exact h0
      · intro hu; rfl
      · exact restoreInnerCatch_inv env st0 s (by simpa using hs)
    · cases huw : env.userWriteError <;> rw [huw] at hs
      case false =>
        simp only [Bool.false_eq_true, if_false, ite_false, List.mem_cons,
          List.not_mem_nil, or_false] at hs
        rcases hs with rfl | rfl | rfl | rfl <;> first | exact h0 | (intro hu; rfl)
      case true =>
        simp only [if_true, ite_true, List.cons_append, List.nil_append, List.mem_cons] at hs
        rcases hs with rfl | rfl | rfl | hs
        · exact h0
        · intro hu; rfl
        · intro hu; rfl
        · exact restoreInnerCatch_inv env st0 s (by simpa using hs)

theorem except_bind_ok {ε α β : Type} (a : α) (f : α → Except ε β) :
    (Except.ok a : Except ε α) >>= f = f a := rfl

theorem except_bind_err {ε α β : Type} (e : ε) (f : α → Except ε β) :
    (Except.error e : Except ε α) >>= f = Except.error e := rfl

theorem except_pure {ε α : Type} (a : α) : (pure a : Except ε α) = Except.ok a := rfl

theorem loadInvoiceCache_eq (t : Nat) (st : KVStore) :
    loadInvoiceCache t st =
      if st.getFails then (none, st)
      else
        match st.cell with
        | none => (none, st)
        | some .corrupt => (none, st)
        | some (.good d) =>
          if d.expiresAt < t then
            if st.removeFails then (none, st) else (none, { st with cell := none })
          else (some d.invoices, st) := by
  obtain ⟨cell, gf, sf, rf⟩ := st
  cases gf <;> rcases cell with _ | (_ | d) <;> cases rf <;>
    simp only [loadInvoiceCache, loadInvoiceCacheTry, KVStore.getItem,
      KVStore.removeItem] <;>
    try rfl
  all_goals by_cases hexp : d.expiresAt < t <;>
    simp [hexp, except_bind_ok, except_bind_err, except_pure]

theorem loadInvoiceCache_some (t : Nat) (st : KVStore) (l : List Invoice)
    (h : (loadInvoiceCache t st).1 = some l) :
    ∃ d, st.cell = some (.good d) ∧ t ≤ d.expiresAt ∧ l = d.invoices ∧
      (loadInvoiceCache t st).2 = st := by
  obtain ⟨cell, gf, sf, rf⟩ := st
  rw [loadInvoiceCache_eq] at h ⊢
  cases gf
  case true => simp at h
  case false =>
    rw [if_neg (show ¬ ((false : Bool) = true) by decide)] at h ⊢
    rcases cell with _ | (_ | d)
    · simp at h
    · simp at h
    · simp only at h ⊢
      by_cases hexp : d.expiresAt < t
      · rw [if_pos hexp] at h
        cases rf <;> simp at h
      · rw [if_neg hexp] at h
        exact ⟨d, rfl, Nat.le_of_not_lt hexp, (Option.some.inj h).symm, by rw [if_neg hexp]⟩

theorem saveInvoiceCache_ok (tW : Nat) (records : List Invoice) (st st' : KVStore)
    (h : saveInvoiceCache tW records st = .ok st') :
    st.setFails = false ∧
      st' = { st with cell := some (.good
        { invoices := records, timestamp := tW, expiresAt := tW + CACHE_TTL }) } := by
  unfold saveInvoiceCache KVStore.setItem at h
  cases hsf : st.setFails
  case true => simp [hsf] at h
  case false =>
    rw [hsf, if_neg (show ¬ ((false : Bool) = true) by decide)] at h
    exact ⟨rfl, (Except.ok.inj h).symm⟩

theorem loginRun_login_error (env : LoginEnv) (s0 : AuthState) (st0 : AuthStorage)
    (e : String) (h : loginApi env.loginHttp = .error e) :
    loginRun env s0 st0 =
      ⟨.error e, clearedState, st0, [{ s0 with loading := true }, clearedState]⟩ := by
  unfold loginRun
  rw [h]

theorem loginRun_fetch_error (env : LoginEnv) (s0 : AuthState) (st0 : AuthStorage)
    (tks : AuthTokens) (e : String) (h1 : loginApi env.loginHttp = .ok tks)
    (h2 : fetchUserApi env.fetchUserHttp = .error e) :
    loginRun env s0 st0 =
      ⟨.error e, clearedState, st0, [{ s0 with loading := true }, clearedState]⟩ := by
  unfold loginRun
  rw [h1, h2]

theorem logoutRun_fst (env : RemoveEnv) (s0 : AuthState) (st0 : AuthStorage) :
    (logoutRun env s0 st0).1 = { user := none, tokens := none, loading := s0.loading } := by
  unfold logoutRun
  split
  · rfl
  · split <;> rfl

theorem handleTokenExpirationRun_fst (env : RemoveEnv) (s0 : AuthState) (st0 : AuthStorage) :
    (handleTokenExpirationRun env s0 st0).1 =
      { user := none, tokens := none, loading := s0.loading } := by
  unfold handleTokenExpirationRun
  split
  · rfl
  · split <;> rfl

theorem loadInvoices_preserves (isRefresh : Bool) (now : Nat)
    (fetchHttp : HttpOutcome (List Invoice)) (session : AuthState) (authSt : AuthStorage)
    (cacheSt : KVStore) (s : InvoicesScreenState) :
    (loadInvoices isRefresh now fetchHttp session authSt cacheSt s).session = session
    ∧ (loadInvoices isRefresh now fetchHttp session authSt cacheSt s).authStorage = authSt := by
  constructor <;>
    (dsimp only [loadInvoices, loadInvoicesCatch]
     repeat' split
     all_goals rfl)

/-! ## Claims -/

/-- C1: `calculateFinancialMetrics` returns Outstanding equal to the sum of
amounts over valid records with status unpaid or pending, Paid equal to the
sum over valid paid records, and Total equal to the sum over all valid
records regardless of status (validity: id, amount and status present and
the amount numeric; negative amounts included); the empty list yields three
zeros and the worked three-record scenario yields 31500 / 15000 / 46500. -/
theorem claim_C1 :
    (∀ invoices : List Invoice,
      calculateFinancialMetrics invoices =
        { outstandingRevenue :=
            sumCents ((invoices.filter Invoice.isValid).filter Invoice.isOutstandingStatus)
          paidRevenue :=
            sumCents ((invoices.filter Invoice.isValid).filter Invoice.isPaidStatus)
          totalRevenue := sumCents (invoices.filter Invoice.isValid) })
    ∧ calculateFinancialMetrics [] =
        { outstandingRevenue := 0, paidRevenue := 0, totalRevenue := 0 }
    ∧ calculateFinancialMetrics
        [scenarioInvoice 1 15000 "paid", scenarioInvoice 2 8500 "pending",
          scenarioInvoice 3 23000 "unpaid"] =
        { outstandingRevenue := 31500, paidRevenue := 15000, totalRevenue := 46500 } :=
  ⟨calculateFinancialMetrics_eq, by decide, by decide⟩

/-- C8: `formatCurrency` produces a currency string with the dollar symbol,
exactly two decimal places, and a leading minus exactly for negative
amounts; −50000 cents formats as "-$500.00", zero as "$0.00", and the
scenario metrics format as "$315.00", "$150.00", "$465.00". -/
theorem claim_C8 :
    (∀ cents : Int,
      ∃ p q : List Char,
        (formatCurrency cents).data = p ++ '.' :: q ∧
          q.length = 2 ∧ (∀ c ∈ q, c.isDigit = true) ∧ '.' ∉ p ∧
          ((cents < 0 ∧ p.take 2 = ['-', '$']) ∨ (0 ≤ cents ∧ p.take 1 = ['$'])))
    ∧ formatCurrency (-50000) = "-$500.00"
    ∧ formatCurrency 0 = "$0.00"
    ∧ formatFinancialMetrics
        { outstandingRevenue := 31500, paidRevenue := 15000, totalRevenue := 46500 } =
        { outstandingRevenue := "$315.00", paidRevenue := "$150.00"
          totalRevenue := "$465.00" } := by
  refine ⟨?_, by decide, by decide, by decide⟩
  intro cents
  refine ⟨(if cents < 0 then ['-'] else []) ++
      '$' :: groupDigits (natDigits (cents.natAbs / 100)),
    padTwoChars (cents.natAbs % 100), ?_, rfl, ?_, ?_, ?_⟩
  · show formatCurrencyChars cents = _
    simp [formatCurrencyChars, List.append_assoc]
  · intro c hc
    simp only [padTwoChars, List.mem_cons, List.not_mem_nil, or_false] at hc
    rcases hc with rfl | rfl
    · exact digitChar_isDigit _ (Nat.mod_lt _ (by decide))
    · exact digitChar_isDigit _ (Nat.mod_lt _ (by decide))
  · intro h
    rcases List.mem_append.mp h with h | h
    · by_cases hneg : cents < 0 <;> simp [hneg] at h
    · rcases List.mem_cons.mp h with h | h
      · exact absurd h (by decide)
      · rcases mem_groupDigits _ _ h with h | h
        · exact absurd (mem_natDigits _ _ h) (by decide)
        · exact absurd h (by decide)
  · by_cases hneg : cents < 0
    · exact Or.inl ⟨hneg, by simp [hneg]⟩
    · exact Or.inr ⟨le_of_not_lt hneg, by simp [hneg]⟩

/-- C8 witness: the negative instance evaluated concretely. -/
theorem claim_C8_witness : formatCurrency (-50000) = "-$500.00" :=
  claim_C8.2.1

/-- C9: a present but corrupt cache entry makes `loadInvoiceCache` return
the no-cache result without throwing past the catch, and the corrupt entry
is left in storage, so a later read encounters it again. -/
theorem claim_C9 :
    ∀ (t1 t2 : Nat) (st : KVStore), st.cell = some .corrupt →
      loadInvoiceCache t1 st = (none, st)
      ∧ ((loadInvoiceCache t1 st).2).cell = some RawCached.corrupt
      ∧ loadInvoiceCache t2 ((loadInvoiceCache t1 st).2) = (none, st) := by
  intro t1 t2 st hc
  have key : ∀ t : Nat, loadInvoiceCache t st = (none, st) := by
    intro t
    rw [loadInvoiceCache_eq, hc]
    split <;> rfl
  refine ⟨key t1, ?_, ?_⟩
  · rw [key t1]; exact hc
  · rw [key t1]; exact key t2

/-- C9 witness: the behavior at a concrete corrupt store. -/
theorem claim_C9_witness :
    loadInvoiceCache 0
        { cell := some .corrupt, getFails := false, setFails := false, removeFails := false } =
      (none, { cell := some .corrupt, getFails := false, setFails := false
               removeFails := false })
    ∧ ((loadInvoiceCache 0
        { cell := some .corrupt, getFails := false, setFails := false
          removeFails := false }).2).cell = some RawCached.corrupt
    ∧ loadInvoiceCache 1 ((loadInvoiceCache 0
        { cell := some .corrupt, getFails := false, setFails := false
          removeFails := false }).2) =
      (none, { cell := some .corrupt, getFails := false, setFails := false
               removeFails := false }) :=
  claim_C9 0 1 _ rfl

/-- C3 counterexample: an entry written at time 0 expires at 300000, and a
read at exactly 300000 — a time not strictly before the expiry — still
returns the stored collection instead of deleting the entry and reporting
no cache. -/
theorem claim_C3_counterexample :
    saveInvoiceCache 0 [] emptyCache =
      .ok { cell := some (.good { invoices := [], timestamp := 0, expiresAt := 300000 })
            getFails := false, setFails := false, removeFails := false }
    ∧ ¬ (300000 < 0 + CACHE_TTL)
    ∧ (loadInvoiceCache 300000
        { cell := some (.good { invoices := [], timestamp := 0, expiresAt := 300000 })
          getFails := false, setFails := false, removeFails := false }).1 = some [] := by
  decide

/-- C3 amended: with a working store, a write followed by a read strictly
before the TTL elapses returns exactly the written collection; a read
returns the stored collection only if the read time is at or before the
stored expiry (the boundary instant included, unlike the strict bound the
claim states); when the read time is strictly after the expiry, the stale
entry is deleted and no cache is reported, and a subsequent read observes
the entry absent. -/
theorem claim_C3_amended :
    ∀ (tW tR : Nat) (records : List Invoice) (st st' : KVStore),
      st.getFails = false → st.removeFails = false →
      saveInvoiceCache tW records st = .ok st' →
      ((tR < tW + CACHE_TTL → loadInvoiceCache tR st' = (some records, st'))
        ∧ (∀ l, (loadInvoiceCache tR st').1 = some l → tR ≤ tW + CACHE_TTL ∧ l = records)
        ∧ (tW + CACHE_TTL < tR →
            loadInvoiceCache tR st' = (none, { st' with cell := none })
            ∧ (loadInvoiceCache tR { st' with cell := none }).1 = none)) := by
  intro tW tR records st st' hg hr hsave
  obtain ⟨cell, gf, sf, rf⟩ := st
  replace hg : gf = false := hg
  replace hr : rf = false := hr
  subst hg; subst hr
  obtain ⟨hsf, rfl⟩ := saveInvoiceCache_ok _ _ _ _ hsave
  replace hsf : sf = false := hsf
  subst hsf
  refine ⟨?_, ?_, ?_⟩
  · intro hlt
    rw [loadInvoiceCache_eq]
    simp [show ¬ (tW + CACHE_TTL < tR) from by omega]
  · intro l hl
    obtain ⟨d, hd, hle, hinv, _⟩ := loadInvoiceCache_some _ _ _ hl
    obtain rfl : d = { invoices := records, timestamp := tW, expiresAt := tW + CACHE_TTL } :=
      (RawCached.good.inj (Option.some.inj hd)).symm
    exact ⟨hle, hinv⟩
  · intro hgt
    constructor
    · rw [loadInvoiceCache_eq]
      simp [show tW + CACHE_TTL < tR from hgt]
    · rw [loadInvoiceCache_eq]
      simp

/-- C6 counterexample: a failing store makes `saveInvoiceCache` reject — a
storage-layer write failure propagates to the caller instead of completing
softly (the source has no try/catch around the write). -/
theorem claim_C6_counterexample :
    saveInvoiceCache 0 []
        { cell := none, getFails := false, setFails := true, removeFails := false } =
      .error () := by
  decide

/-- C6 amended: `loadInvoiceCache` never propagates a storage failure —
a read failure, like any throw out of its try block, is treated as the
no-cache result with the store untouched — but `saveInvoiceCache` performs
no error handling and a storage write failure propagates to its caller. -/
theorem claim_C6_amended :
    (∀ (t : Nat) (st : KVStore), st.getFails = true → loadInvoiceCache t st = (none, st))
    ∧ (∀ (t : Nat) (st : KVStore) (r : Unit),
        loadInvoiceCacheTry t st = .error r → loadInvoiceCache t st = (none, st))
    ∧ (∀ (t : Nat) (records : List Invoice) (st : KVStore), st.setFails = true →
        saveInvoiceCache t records st = .error ()) := by
  refine ⟨?_, ?_, ?_⟩
  · intro t st hg
    rw [loadInvoiceCache_eq, if_pos hg]
  · intro t st r htry
    unfold loadInvoiceCache
    rw [htry]
  · intro t records st hs
    unfold saveInvoiceCache KVStore.setItem
    rw [if_pos hs]

/-- C6 witness: the amended behavior at a concrete failing store. -/
theorem claim_C6_witness :
    loadInvoiceCache 7
        { cell := none, getFails := true, setFails := false, removeFails := false } =
      (none, { cell := none, getFails := true, setFails := false, removeFails := false })
    ∧ saveInvoiceCache 7 []
        { cell := none, getFails := true, setFails := true, removeFails := false } =
      .error () :=
  ⟨claim_C6_amended.1 7 _ rfl, claim_C6_amended.2.2 7 [] _ rfl⟩

/-- C3 witness: the amended round trip at a concrete store — write at time
0, read at time 1, well before the TTL elapses. -/
theorem claim_C3_witness :
    loadInvoiceCache 1
        { cell := some (.good { invoices := [], timestamp := 0, expiresAt := 300000 })
          getFails := false, setFails := false, removeFails := false } =
      (some [],
        { cell := some (.good { invoices := [], timestamp := 0, expiresAt := 300000 })
          getFails := false, setFails := false, removeFails := false }) :=
  (claim_C3_amended 0 1 [] emptyCache _ rfl rfl (by decide)).1 (by decide)

/-- C7: in every session state reachable through login, logout, session
restoration and the credential-expiry handler, the authenticated flag
equals the conjunction of user-identity-present and credential-pair-present
(it is computed, never stored), and a user identity is never present while
the credential pair is absent. -/
theorem claim_C7 :
    ∀ s : AuthState, ReachableAuth s →
      isAuthenticated s = (s.user.isSome && s.tokens.isSome)
      ∧ (s.user.isSome = true → s.tokens.isSome = true) := by
  intro s hreach
  refine ⟨rfl, ?_⟩
  induction hreach with
  | init => intro h; simp at h
  | login_step env s0 st0 s hr hmem ih => exact loginRun_trace_inv env s0 st0 ih s hmem
  | logout_step env s0 st0 hr ih =>
    rw [logoutRun_fst]
    intro h
    simp at h
  | expiry_step env s0 st0 hr ih =>
    rw [handleTokenExpirationRun_fst]
    intro h
    simp at h
  | restore_step env s0 st0 s hr hmem ih => exact restoreRun_trace_inv env s0 st0 ih s hmem

/-- C7 witness: the invariant at the authenticated state reached by a fully
successful login from the empty state. -/
theorem claim_C7_witness :
    isAuthenticated { user := some u0, tokens := some t0, loading := false } =
      (({ user := some u0, tokens := some t0, loading := false } : AuthState).user.isSome &&
        ({ user := some u0, tokens := some t0, loading := false } : AuthState).tokens.isSome)
    ∧ (({ user := some u0, tokens := some t0, loading := false } : AuthState).user.isSome = true →
        ({ user := some u0, tokens := some t0, loading := false } : AuthState).tokens.isSome = true) :=
  claim_C7 _ (ReachableAuth.login_step
    { loginHttp := .resp 200 (.ok t0), fetchUserHttp := .resp 200 (.ok u0)
      tokensWriteError := none, userWriteError := none }
    { user := none, tokens := none, loading := false }
    { tokens := none, user := none } _
    ReachableAuth.init (by decide))

/-- C4 counterexample: a login whose remote authentication call succeeds
and whose profile fetch answers 401 surfaces "Token expired", while a
network-failed login surfaces "Login failed" — the failure signal does
distinguish the two causes, contradicting the single undifferentiated
signal the claim states. -/
theorem claim_C4_counterexample :
    (loginRun { loginHttp := .resp 200 (.ok t0), fetchUserHttp := .resp 401 (.error ())
                tokensWriteError := none, userWriteError := none }
        { user := none, tokens := none, loading := false }
        { tokens := none, user := none }).outcome = .error "Token expired"
    ∧ (loginRun { loginHttp := .netError, fetchUserHttp := .netError
                  tokensWriteError := none, userWriteError := none }
        { user := none, tokens := none, loading := false }
        { tokens := none, user := none }).outcome = .error "Login failed"
    ∧ ("Token expired" : String) ≠ "Login failed" := by
  decide

/-- C4 amended: every login that fails in the remote authentication call or
in the profile fetch leaves the empty session state unchanged and persists
nothing; the surfaced signal is "Login failed" for all causes except a
401/403 profile-fetch failure, which surfaces the distinct "Token expired"
signal. -/
theorem claim_C4_amended :
    ∀ (env : LoginEnv) (st0 : AuthStorage),
      ((∃ e, loginApi env.loginHttp = .error e) ∨
        ((∃ tks, loginApi env.loginHttp = .ok tks) ∧
          ∃ e, fetchUserApi env.fetchUserHttp = .error e)) →
      (loginRun env { user := none, tokens := none, loading := false } st0).state =
          { user := none, tokens := none, loading := false }
      ∧ (loginRun env { user := none, tokens := none, loading := false } st0).storage = st0
      ∧ ((loginRun env { user := none, tokens := none, loading := false } st0).outcome =
            .error "Login failed"
          ∨ (loginRun env { user := none, tokens := none, loading := false } st0).outcome =
            .error "Token expired")
      ∧ ((loginRun env { user := none, tokens := none, loading := false } st0).outcome =
            .error "Token expired" ↔
          (∃ tks, loginApi env.loginHttp = .ok tks) ∧
            fetchUserApi env.fetchUserHttp = .error "Token expired") := by
  intro env st0 hfail
  rcases hla : loginApi env.loginHttp with e | tks
  · obtain rfl : e = "Login failed" := loginApi_error_msg _ _ hla
    rw [loginRun_login_error env _ st0 _ hla]
    refine ⟨rfl, rfl, Or.inl rfl, ?_, ?_⟩
    · intro h
      exact absurd (Except.error.inj h) (by decide)
    · rintro ⟨⟨tks, ht⟩, -⟩
      exact Except.noConfusion ht
  · rcases hfail with ⟨e, he⟩ | ⟨-, ⟨e, hfe⟩⟩
    · rw [hla] at he
      exact Except.noConfusion he
    · rw [loginRun_fetch_error env _ st0 tks e hla hfe]
      refine ⟨rfl, rfl, ?_, ?_, ?_⟩
      · rcases fetchUserApi_error_msg _ _ hfe with rfl | rfl
        · exact Or.inl rfl
        · exact Or.inr rfl
      · intro h
        obtain rfl : e = "Token expired" := Except.error.inj h
        exact ⟨⟨tks, rfl⟩, hfe⟩
      · rintro ⟨-, hTE⟩
        rw [hfe] at hTE
        exact congrArg Except.error (Except.error.inj hTE)

/-- C4 witness: the amended statement at a concrete network-failed login. -/
theorem claim_C4_witness :
    (loginRun { loginHttp := .netError, fetchUserHttp := .netError
                tokensWriteError := none, userWriteError := none }
        { user := none, tokens := none, loading := false }
        { tokens := none, user := none }).state =
      { user := none, tokens := none, loading := false } :=
  (claim_C4_amended
    { loginHttp := .netError, fetchUserHttp := .netError
      tokensWriteError := none, userWriteError := none }
    { tokens := none, user := none } (Or.inl ⟨"Login failed", rfl⟩)).1

/-- C5 counterexample: when both remote calls succeed but the durable
storage write of the tokens key rejects, login does not complete
successfully with the state populated — it surfaces the storage failure and
clears the in-memory session state. -/
theorem claim_C5_counterexample :
    (loginRun { loginHttp := .resp 200 (.ok t0), fetchUserHttp := .resp 200 (.ok u0)
                tokensWriteError := some "storage write failed", userWriteError := none }
        { user := none, tokens := none, loading := false }
        { tokens := none, user := none }).outcome = .error "storage write failed"
    ∧ (loginRun { loginHttp := .resp 200 (.ok t0), fetchUserHttp := .resp 200 (.ok u0)
                  tokensWriteError := some "storage write failed", userWriteError := none }
        { user := none, tokens := none, loading := false }
        { tokens := none, user := none }).state =
      { user := none, tokens := none, loading := false } := by
  decide

/-- C5 amended: a durable-storage write failure during the success path of
login is caught by the same handler as any other failure: the in-memory
session state is cleared (the partial success is rolled back) and the
storage failure propagates to the caller; it is not merely logged. -/
theorem claim_C5_amended :
    ∀ (env : LoginEnv) (s0 : AuthState) (st0 : AuthStorage) (tks : AuthTokens)
      (usr : User) (e : String),
      loginApi env.loginHttp = .ok tks →
      fetchUserApi env.fetchUserHttp = .ok usr →
      (env.tokensWriteError = some e ∨
        (env.tokensWriteError = none ∧ env.userWriteError = some e)) →
      (loginRun env s0 st0).outcome = .error e
      ∧ (loginRun env s0 st0).state = { user := none, tokens := none, loading := false } := by
  intro env s0 st0 tks usr e hla hfu hw
  unfold loginRun
  rw [hla, hfu]
  rcases hw with hw | ⟨hw1, hw2⟩
  · rw [hw]
    exact ⟨rfl, rfl⟩
  · rw [hw1, hw2]
    exact ⟨rfl, rfl⟩

/-- C5 witness: the amended statement at a concrete failing user-key
write. -/
theorem claim_C5_witness :
    (loginRun { loginHttp := .resp 200 (.ok t0), fetchUserHttp := .resp 200 (.ok u0)
                tokensWriteError := none, userWriteError := some "disk full" }
        { user := none, tokens := none, loading := false }
        { tokens := none, user := none }).outcome = .error "disk full"
    ∧ (loginRun { loginHttp := .resp 200 (.ok t0), fetchUserHttp := .resp 200 (.ok u0)
                  tokensWriteError := none, userWriteError := some "disk full" }
        { user := none, tokens := none, loading := false }
        { tokens := none, user := none }).state =
      { user := none, tokens := none, loading := false } :=
  claim_C5_amended _ _ _ t0 u0 "disk full" (by decide) (by decide) (Or.inr ⟨rfl, rfl⟩)

/-- C10: every login invocation settles with the loading flag false — on
the success path and on every failure path alike, storage write failures
included — and every state flushed before the final one carries the flag
true, i.e. the flag is true exactly while the call is in flight. -/
theorem claim_C10 :
    ∀ (env : LoginEnv) (s0 : AuthState) (st0 : AuthStorage),
      (loginRun env s0 st0).state.loading = false
      ∧ ∃ pre, (loginRun env s0 st0).trace = pre ++ [(loginRun env s0 st0).state]
          ∧ ∀ s ∈ pre, s.loading = true := by
  intro env s0 st0
  unfold loginRun
  rcases hla : loginApi env.loginHttp with e | tks
  · refine ⟨rfl, [{ s0 with loading := true }], rfl, ?_⟩
    intro s hs
    rw [List.mem_singleton] at hs
    subst hs
    rfl
  · rcases hfu : fetchUserApi env.fetchUserHttp with e | usr
    · refine ⟨rfl, [{ s0 with loading := true }], rfl, ?_⟩
      intro s hs
      rw [List.mem_singleton] at hs
      subst hs
      rfl
    · rcases htw : env.tokensWriteError with _ | e
      · rcases huw : env.userWriteError with _ | e
        · refine ⟨rfl, [{ s0 with loading := true },
            { user := some usr, tokens := some tks, loading := true }], rfl, ?_⟩
          intro s hs
          rcases List.mem_cons.mp hs with rfl | hs
          · rfl
          · rw [List.mem_singleton] at hs
            subst hs
            rfl
        · refine ⟨rfl, [{ s0 with loading := true },
            { user := some usr, tokens := some tks, loading := true }], rfl, ?_⟩
          intro s hs
          rcases List.mem_cons.mp hs with rfl | hs
          · rfl
          · rw [List.mem_singleton] at hs
            subst hs
            rfl
      · refine ⟨rfl, [{ s0 with loading := true },
          { user := some usr, tokens := some tks, loading := true }], rfl, ?_⟩
        intro s hs
        rcases List.mem_cons.mp hs with rfl | hs
        · rfl
        · rw [List.mem_singleton] at hs
          subst hs
          rfl

/-- C10 witness: the settled loading flag at a concrete successful login. -/
theorem claim_C10_witness :
    (loginRun { loginHttp := .resp 200 (.ok t0), fetchUserHttp := .resp 200 (.ok u0)
                tokensWriteError := none, userWriteError := none }
        { user := none, tokens := none, loading := false }
        { tokens := none, user := none }).state.loading = false :=
  (claim_C10 _ _ _).1

/-- C2 counterexample: a 401 response to the invoice fetch is handled by
the screen orchestration exactly like a generic failure — the session stays
authenticated, both stored credential keys remain, and the screen shows the
generic error — contradicting the claimed transition to Unauthenticated
with the credential keys removed. -/
theorem claim_C2_counterexample :
    (loadInvoices false 0 (.resp 401 (.ok []))
        { user := some u0, tokens := some t0, loading := false }
        { tokens := some (.good t0), user := some (.good u0) }
        emptyCache
        { invoices := [], isLoading := true, isRefreshing := false, error := none }).session =
      { user := some u0, tokens := some t0, loading := false }
    ∧ (loadInvoices false 0 (.resp 401 (.ok []))
        { user := some u0, tokens := some t0, loading := false }
        { tokens := some (.good t0), user := some (.good u0) }
        emptyCache
        { invoices := [], isLoading := true, isRefreshing := false, error := none }).authStorage =
      { tokens := some (.good t0), user := some (.good u0) }
    ∧ isAuthenticated ((loadInvoices false 0 (.resp 401 (.ok []))
        { user := some u0, tokens := some t0, loading := false }
        { tokens := some (.good t0), user := some (.good u0) }
        emptyCache
        { invoices := [], isLoading := true, isRefreshing := false, error := none }).session) = true
    ∧ (loadInvoices false 0 (.resp 401 (.ok []))
        { user := some u0, tokens := some t0, loading := false }
        { tokens := some (.good t0), user := some (.good u0) }
        emptyCache
        { invoices := [], isLoading := true, isRefreshing := false, error := none }).screen.error =
      some "Unable to load invoices" := by
  decide

/-- C2 amended: `fetchInvoices` does signal a 401/403 response distinctly
("Token expired", never the generic message), but the invoice-screen
orchestration collapses it into the generic fetch-failure path: the
session state and the stored credential keys pass through `loadInvoices`
untouched (and no metrics are computed by it). -/
theorem claim_C2_amended :
    (∀ (status : Nat) (body : Except Unit (List Invoice)),
        status = 401 ∨ status = 403 →
        fetchInvoices (.resp status body) = .error "Token expired")
    ∧ (∀ (status : Nat) (body : Except Unit (List Invoice)),
        ¬ httpOk status → ¬ (status = 401 ∨ status = 403) →
        fetchInvoices (.resp status body) = .error "Failed to fetch invoices")
    ∧ ("Token expired" : String) ≠ "Failed to fetch invoices"
    ∧ (∀ (isRefresh : Bool) (now status : Nat) (body : Except Unit (List Invoice))
        (session : AuthState) (authSt : AuthStorage) (cacheSt : KVStore)
        (s : InvoicesScreenState),
        status = 401 ∨ status = 403 →
        (loadInvoices isRefresh now (.resp status body) session authSt cacheSt s).session =
          session
        ∧ (loadInvoices isRefresh now (.resp status body) session authSt cacheSt s).authStorage =
          authSt) := by
  refine ⟨?_, ?_, by decide, ?_⟩
  · intro status body h
    have hnok : ¬ httpOk status := by
      rcases h with rfl | rfl <;> decide
    simp only [fetchInvoices]
    rw [if_neg hnok, if_pos h]
  · intro status body h1 h2
    simp only [fetchInvoices]
    rw [if_neg h1, if_neg h2]
  · intro isRefresh now status body session authSt cacheSt s _
    exact loadInvoices_preserves isRefresh now (.resp status body) session authSt cacheSt s

/-- C2 witness: the amended statement at a concrete 403 fetch. -/
theorem claim_C2_witness :
    fetchInvoices (.resp 403 (.ok [])) = .error "Token expired"
    ∧ (loadInvoices false 5 (.resp 403 (.ok []))
        { user := some u0, tokens := some t0, loading := false }
        { tokens := some (.good t0), user := some (.good u0) }
        emptyCache
        { invoices := [], isLoading := true, isRefreshing := false, error := none }).session =
      { user := some u0, tokens := some t0, loading := false } :=
  ⟨claim_C2_amended.1 403 _ (Or.inr rfl),
    (claim_C2_amended.2.2.2 false 5 403 (.ok [])
      { user := some u0, tokens := some t0, loading := false }
      { tokens := some (.good t0), user := some (.good u0) }
      emptyCache
      { invoices := [], isLoading := true, isRefreshing := false, error := none }
      (Or.inr rfl)).1⟩

end Billing
